import Mathlib

/-!
Verification of the quiz generation-and-persistence flow of the
learn_pydanticai repository. The definitions below are a shallow embedding
of the Python sources: `lumi_system.py` (format and logical validation),
`lumi_system_02.py` (requirement extraction, output validation, identifier
assignment and persistence) and `database.py` (connection handling).
External collaborators (the language model, the reviewing collaborator and
the MongoDB driver) are modelled as explicit inputs: the reviewer response
is a string parameter, the curriculum lookup is a function parameter, and
insert failures are an oracle parameter.
-/

/-- Grade enum of lumi_system_02.py with its string values. -/
inductive Grade where
  | sixth
  | seventh
  | eighth
  | ninth
  | tenth
  | eleventh
  | twelfth
  | others
deriving DecidableEq, Repr

/-- The .value of each Grade member, as in the Python enum. -/
def Grade.value : Grade → String
  | .sixth => "6"
  | .seventh => "7"
  | .eighth => "8"
  | .ninth => "9"
  | .tenth => "10"
  | .eleventh => "11"
  | .twelfth => "12"
  | .others => "99"

/-- QuestionDifficulty enum shared by both lumi_system files. -/
inductive QuestionDifficulty where
  | beginner
  | intermediate
  | advanced
deriving DecidableEq, Repr

/-- The .value of each QuestionDifficulty member. -/
def QuestionDifficulty.value : QuestionDifficulty → String
  | .beginner => "Beginner"
  | .intermediate => "Intermediate"
  | .advanced => "Advanced"

/-- QuestionType enum shared by both lumi_system files. -/
inductive QuestionType where
  | multiple_choice
  | single_select
  | true_false
deriving DecidableEq, Repr

/-- QuestionOption model: one labelled option of a question. -/
structure QuestionOption where
  id : String
  text : String
deriving DecidableEq, Repr

/-- QuestionDocument model: one candidate question produced by the tutor. -/
structure QuestionDocument where
  question_type : QuestionType
  question_text : String
  options : List QuestionOption
  correct_option : String
  explanation : String
  hint : String
deriving DecidableEq, Repr

/-- QuestionBank model: the batch the tutor agent outputs. -/
structure QuestionBank where
  questions : List QuestionDocument
deriving DecidableEq, Repr

/-- Question model of lumi_system_02.py: the persisted record shape.
The datetime field is modelled as a Nat timestamp passed in by the caller. -/
structure Question where
  question_id : String
  grade : Grade
  subject : String
  topic : String
  subtopic : Option String
  difficulty : QuestionDifficulty
  question_type : QuestionType
  question_text : String
  options : List QuestionOption
  correct_option : String
  explanation : String
  hint : String
  created_by : String
  created_at : Nat
deriving DecidableEq, Repr

/-- ValidationResult model of lumi_system_02.py. -/
structure ValidationResult where
  is_valid : Bool
  error_message : Option String
deriving DecidableEq, Repr

/-- UserRequirements dataclass of lumi_system_02.py, with its defaults. -/
structure UserRequirements where
  grade : Grade := .sixth
  subject : String := ""
  reference : String := ""
  topic : String := ""
  subtopic : Option String := none
  difficulty : QuestionDifficulty := .beginner
  number_of_questions : Nat := 1
deriving DecidableEq, Repr

/-! ## The format validator of lumi_system.py -/

/-- Count of characters matched by the Python regex (?<!\\)\$ in a
character list: dollar signs whose immediately preceding character is not a
backslash. The prev argument carries the previous character. -/
def countUDFrom (prev : Option Char) : List Char → Nat
  | [] => 0
  | c :: rest =>
      (if c = '$' ∧ prev ≠ some '\\' then 1 else 0) + countUDFrom (some c) rest

/-- Count of unescaped dollar delimiters in a string, as computed by
re.findall in validate_latex_format. -/
def countUnescapedDollars (text : String) : Nat :=
  countUDFrom none text.data

/-- The two rejection reasons validate_latex_format can raise. -/
inductive LatexReject where
  | unbalancedDollars
  | disallowedAngle
deriving DecidableEq, Repr

/-- The ModelRetry message attached to each rejection reason. -/
def latexRejectMsg : LatexReject → String
  | .unbalancedDollars => "Unbalanced LaTeX $ delimiters. Ensure every $ is closed."
  | .disallowedAngle => "Use \\lt or \\gt instead of < or > inside math blocks."

/-- validate_latex_format of lumi_system.py. Returns the reason raised, or
none when the text passes. The dollar-balance check runs first; the angle
bracket check fires only when the text also contains a dollar sign. -/
def validate_latex_format (text : String) : Option LatexReject :=
  if countUnescapedDollars text % 2 ≠ 0 then
    some .unbalancedDollars
  else if ('<' ∈ text.data ∨ '>' ∈ text.data) ∧ '$' ∈ text.data then
    some .disallowedAngle
  else
    none

/-- The format-check half of master_validation_loop: runs
validate_latex_format on question_text then explanation of each question in
order, returning the first rejection. -/
def formatCheckBank : List QuestionDocument → Option LatexReject
  | [] => none
  | q :: rest =>
      match validate_latex_format q.question_text with
      | some r => some r
      | none =>
          match validate_latex_format q.explanation with
          | some r => some r
          | none => formatCheckBank rest

example : countUnescapedDollars "Solve $x+1=2" = 1 := by decide
example : countUnescapedDollars "a \\$ b" = 0 := by decide
example : validate_latex_format "$<" = some .unbalancedDollars := by decide
example : validate_latex_format "a < b" = none := by decide
example : validate_latex_format "$a \\lt b$" = none := by decide

/-! ## The logical check of master_validation_loop -/

/-- Python str.upper restricted to the ASCII texts this flow handles,
as a character list. -/
def pyUpper (s : String) : List Char :=
  s.data.map Char.toUpper

/-- Whether hay starts with needle (character-wise). -/
def startsWithSeq : List Char → List Char → Bool
  | [], _ => true
  | _ :: _, [] => false
  | a :: as, b :: bs => a == b && startsWithSeq as bs

/-- Whether needle occurs as a contiguous subsequence of hay, the meaning
of the Python `in` operator on strings. -/
def containsSeq (needle : List Char) : List Char → Bool
  | [] => startsWithSeq needle []
  | c :: rest => startsWithSeq needle (c :: rest) || containsSeq needle rest

/-- The sentinel test of master_validation_loop:
`"FIX:" in critique.output.upper()`. -/
def containsFix (critique : String) : Bool :=
  containsSeq "FIX:".data (pyUpper critique)

/-- master_validation_loop of lumi_system.py. The reviewing collaborator is
external, so its response text is a parameter. Raised ModelRetry failures
are modelled as the error branch of Except carrying the message. -/
def master_validation_loop (bank : QuestionBank) (critique : String) :
    Except String QuestionBank :=
  match formatCheckBank bank.questions with
  | some r => .error (latexRejectMsg r)
  | none =>
      if containsFix critique then .error ("Logic Error: " ++ critique)
      else .ok bank

/-- validate_question_rigor of lumi_system_02.py. The validator agent is
external, so its structured ValidationResult is a parameter; deps is the
RunContext dependency object (unused by the body, as in the source). -/
def validate_question_rigor (deps : UserRequirements) (bank : QuestionBank)
    (validation : ValidationResult) : Except String QuestionBank :=
  if validation.is_valid then .ok bank
  else .error ("Validation failed: " ++ validation.error_message.getD "None")

/-! ## The correct-option label invariant stated by the specification -/

/-- Split a character list on commas, as Python str.split(",") does. -/
def splitCommaAux (cur : List Char) : List Char → List (List Char)
  | [] => [cur.reverse]
  | c :: rest =>
      if c = ',' then cur.reverse :: splitCommaAux [] rest
      else splitCommaAux (c :: cur) rest

/-- The correct-option labels of a question: its correct_option field split
on commas. -/
def correctLabels (q : QuestionDocument) : List (List Char) :=
  splitCommaAux [] q.correct_option.data

/-- The option labels of a question, in order. -/
def optionLabels (q : QuestionDocument) : List (List Char) :=
  q.options.map (fun o => o.id.data)

/-- The invariant the specification states for accepted batches: every
correct-option label references an existing option label, and option labels
are unique within each question. -/
def labelInvariant (bank : QuestionBank) : Prop :=
  ∀ q ∈ bank.questions,
    (∀ l ∈ correctLabels q, l ∈ optionLabels q) ∧ (optionLabels q).Nodup

/-! ## Requirement extraction: update_requirements of lumi_system_02.py -/

/-- A curriculum record as returned by the projected find_one: it may or
may not carry a reference field. An empty projection result is falsy in
Python, which coincides with the missing-reference branch. -/
structure CurriculumDoc where
  reference : Option String
deriving DecidableEq, Repr

/-- update_requirements of lumi_system_02.py. The tool sets every field of
the shared deps from the model call arguments, performs one curriculum read
keyed by the grade and subject just stored, and overwrites reference only
when the returned record exists and carries a reference field. -/
def update_requirements (deps : UserRequirements)
    (lookup : Grade → String → Option CurriculumDoc)
    (grade : Grade) (subject reference topic : String)
    (subtopic : Option String) (difficulty : QuestionDifficulty)
    (number_of_questions : Nat) : UserRequirements :=
  let deps1 : UserRequirements :=
    { deps with
      grade := grade
      subject := subject
      reference := reference
      topic := topic
      subtopic := subtopic
      difficulty := difficulty
      number_of_questions := number_of_questions }
  match lookup grade subject with
  | some doc =>
      match doc.reference with
      | some r => { deps1 with reference := r }
      | none => deps1
  | none => deps1

/-! ## Persistence: identifier assignment and inserts of run_lumi_flow -/

/-- subject.replace(" ", "") of the f-string building the identifier. -/
def removeSpaces (s : String) : String :=
  String.mk (s.data.filter (fun c => c ≠ ' '))

/-- The 06d format spec: decimal digits left-padded with zeros to width 6. -/
def pad6 (n : Nat) : String :=
  String.mk (List.replicate (6 - (toString n).length) '0') ++ toString n

/-- The identifier f-string of run_lumi_flow. -/
def mkQuestionId (gradeValue subject : String) (seq : Nat) : String :=
  "GR_" ++ gradeValue ++ "_" ++ removeSpaces subject ++ "_" ++ pad6 seq

/-- The trailing segment of an identifier: split on underscore, last token,
as the aggregation pipeline computes with split and arrayElemAt -1. -/
def trailingSegment (qid : String) : String :=
  (qid.splitOn "_").getLastD ""

/-- toInt of the trailing segment of an identifier. -/
def numericPart (qid : String) : Nat :=
  (trailingSegment qid).toNat?.getD 0

/-- The aggregation result of run_lumi_flow: the maximum numeric part over
the bucket of existing identifiers matching (grade, subject), and 1 when
the bucket is empty (result list empty, the `if result else 1` branch). -/
def bucketMaxNumber : List String → Nat
  | [] => 1
  | qid :: rest => (rest.map numericPart).foldl max (numericPart qid)

/-- The record-building loop of run_lumi_flow: each generated question
becomes a Question whose identifier carries the current sequence number,
and the sequence increments by one per question. -/
def buildRecords (deps : UserRequirements) (now : Nat) :
    Nat → List QuestionDocument → List Question
  | _, [] => []
  | seq, q :: rest =>
      { question_id := mkQuestionId deps.grade.value deps.subject seq
        grade := deps.grade
        subject := deps.subject
        topic := deps.topic
        subtopic := deps.subtopic
        difficulty := deps.difficulty
        question_type := q.question_type
        question_text := q.question_text
        options := q.options
        correct_option := q.correct_option
        explanation := q.explanation
        hint := q.hint
        created_by := "surendra"
        created_at := now } :: buildRecords deps now (seq + 1) rest

/-- The persistence stage of run_lumi_flow: sequence numbers start at the
bucket maximum plus one. -/
def persistRecords (deps : UserRequirements) (bucket : List String)
    (now : Nat) (qs : List QuestionDocument) : List Question :=
  buildRecords deps now (bucketMaxNumber bucket + 1) qs

/-- The insert loop of run_lumi_flow: one insert_one call per record, in
order. The oracle ok says whether the k-th insert call succeeds; a raised
insert error aborts the loop, leaving the store as accumulated so far, with
no rollback. Returns the final store and whether the loop completed. -/
def insertLoop (ok : Nat → Bool) (store : List Question) :
    List Question → Nat → List Question × Bool
  | [], _ => (store, true)
  | r :: rest, k =>
      if ok k then insertLoop ok (store ++ [r]) rest (k + 1)
      else (store, false)

/-! ## database.py: the shared MongoDB handle -/

/-- The class-level state of MongoDB in database.py: optional client and
database handles. The database handle is modelled by its name. -/
structure MongoDBState where
  client : Option Unit
  db : Option String
deriving DecidableEq, Repr

/-- The RuntimeError message of MongoDB.get_db. -/
def notConnectedMsg : String :=
  "MongoDB not connected. Call connect_db() first."

/-- MongoDB.get_db: raises RuntimeError when the handle is unset. -/
def get_db (st : MongoDBState) : Except String String :=
  match st.db with
  | none => .error notConnectedMsg
  | some d => .ok d

/-- MongoDB.connect_db: sets the client and db handles, then pings; a
failed ping raises, but the handles are already set. The ping outcome is a
parameter; the result pairs the new state with the raised error if any. -/
def connect_db (st : MongoDBState) (pingOk : Bool) :
    MongoDBState × Option String :=
  let st1 : MongoDBState := { client := some (), db := some "lumi_db" }
  (st1, if pingOk then none else some "Failed to connect to MongoDB")

/-- get_questions_collection of database.py: built on get_db. A collection
handle is the pair of database name and collection name. -/
def get_questions_collection (st : MongoDBState) :
    Except String (String × String) :=
  (get_db st).map (fun d => (d, "questions"))

/-- get_curriculum_collection of database.py: built on get_db. -/
def get_curriculum_collection (st : MongoDBState) :
    Except String (String × String) :=
  (get_db st).map (fun d => (d, "curriculum"))

example : mkQuestionId "9" "Algebra 1" 2 = "GR_9_Algebra1_000002" := by decide
example : containsFix "please fix: the sign" = true := by decide
example : containsFix "all good" = false := by decide

/-! ## Sample values used by concrete scenarios -/

/-- The shared deps of the documented scenario: two advanced Algebra 1
polynomial questions for grade 9. -/
def algebraDeps : UserRequirements :=
  { grade := .ninth
    subject := "Algebra 1"
    reference := ""
    topic := "polynomials"
    subtopic := none
    difficulty := .advanced
    number_of_questions := 2 }

/-- A format-clean sample question. -/
def sampleDoc : QuestionDocument :=
  { question_type := .single_select
    question_text := "Factor the quadratic."
    options := [{ id := "A", text := "one" }, { id := "B", text := "two" }]
    correct_option := "A"
    explanation := "Group the terms."
    hint := "Look for a common factor." }

/-- A question whose correct_option label Z is not among its option labels
A and B; its texts pass the format check. -/
def danglingDoc : QuestionDocument :=
  { question_type := .single_select
    question_text := "Which option is even?"
    options := [{ id := "A", text := "one" }, { id := "B", text := "two" }]
    correct_option := "Z"
    explanation := "Because two is even."
    hint := "Check parity." }

/-! ## Helper lemmas -/

/-- A text that validate_latex_format passes has an even count of unescaped
dollar delimiters. -/
theorem validate_latex_format_none_even (text : String)
    (h : validate_latex_format text = none) :
    countUnescapedDollars text % 2 = 0 := by
  unfold validate_latex_format at h
  by_cases hc : countUnescapedDollars text % 2 ≠ 0
  · simp [hc] at h
  · omega

/-- When the bank-level format check passes, every question passed both
text checks. -/
theorem formatCheckBank_none_sound (qs : List QuestionDocument)
    (hpass : formatCheckBank qs = none) :
    ∀ q ∈ qs, validate_latex_format q.question_text = none ∧
      validate_latex_format q.explanation = none := by
  induction qs with
  | nil => intro q hq; cases hq
  | cons a rest ih =>
      intro q hq
      unfold formatCheckBank at hpass
      cases h1 : validate_latex_format a.question_text with
      | some r => rw [h1] at hpass; cases hpass
      | none =>
          rw [h1] at hpass
          cases h2 : validate_latex_format a.explanation with
          | some r => rw [h2] at hpass; cases hpass
          | none =>
              rw [h2] at hpass
              cases hq with
              | head => exact ⟨h1, h2⟩
              | tail _ hmem => exact ih hpass q hmem

/-- A batch whose texts pass the format check and whose critique lacks the
sentinel passes through master_validation_loop unchanged. -/
theorem master_validation_loop_accepts (bank : QuestionBank) (critique : String)
    (hfmt : formatCheckBank bank.questions = none)
    (hc : containsFix critique = false) :
    master_validation_loop bank critique = .ok bank := by
  unfold master_validation_loop
  rw [hfmt, hc]
  rfl

/-- The identifiers of the built records are the consecutive sequence
numbers starting at the given start, formatted by mkQuestionId. -/
theorem buildRecords_ids (deps : UserRequirements) (now : Nat) (start : Nat)
    (qs : List QuestionDocument) :
    (buildRecords deps now start qs).map Question.question_id =
      (List.range' start qs.length).map
        (mkQuestionId deps.grade.value deps.subject) := by
  induction qs generalizing start with
  | nil => rfl
  | cons q rest ih =>
      simp only [buildRecords, List.map_cons, List.length_cons, List.range',
        ih]

/-! ## Claim theorems -/

/-- C1: run_lumi_flow assigns identifiers GR_(grade)_(subject without
spaces)_(sequence zero-padded to 6 digits); the sequence starts at the
bucket maximum plus one, taking 1 for the maximum when the bucket is empty,
and increments by one per question in batch order. In particular a batch of
two questions into an empty bucket for grade 9, subject Algebra 1 yields
GR_9_Algebra1_000002 and GR_9_Algebra1_000003. -/
theorem persistence_identifier_assignment (deps : UserRequirements)
    (now : Nat) (bucket : List String) (qs : List QuestionDocument) :
    bucketMaxNumber [] = 1 ∧
    (persistRecords deps bucket now qs).map Question.question_id =
      (List.range' (bucketMaxNumber bucket + 1) qs.length).map
        (mkQuestionId deps.grade.value deps.subject) ∧
    (persistRecords algebraDeps [] 0 [sampleDoc, sampleDoc]).map
        Question.question_id =
      ["GR_9_Algebra1_000002", "GR_9_Algebra1_000003"] :=
  ⟨rfl, buildRecords_ids deps now (bucketMaxNumber bucket + 1) qs, by decide⟩

/-- C2: the format check raises the unbalanced-delimiters rejection exactly
when the count of dollar signs not preceded by a backslash is odd, so every
text of a batch that passes the bank-level format check has an even count
of unescaped delimiters. -/
theorem format_check_unbalanced_iff_odd (text : String)
    (qs : List QuestionDocument) :
    (validate_latex_format text = some .unbalancedDollars ↔
      countUnescapedDollars text % 2 = 1) ∧
    (validate_latex_format text = none →
      countUnescapedDollars text % 2 = 0) ∧
    (formatCheckBank qs = none →
      ∀ q ∈ qs, countUnescapedDollars q.question_text % 2 = 0 ∧
        countUnescapedDollars q.explanation % 2 = 0) := by
  refine ⟨?_, validate_latex_format_none_even text, ?_⟩
  · have key : validate_latex_format text = some .unbalancedDollars ↔
        countUnescapedDollars text % 2 ≠ 0 := by
      unfold validate_latex_format
      split
      · simp_all
      · split <;> simp_all
    rw [key]
    omega
  · intro hpass q hq
    obtain ⟨h1, h2⟩ := formatCheckBank_none_sound qs hpass q hq
    exact ⟨validate_latex_format_none_even _ h1,
      validate_latex_format_none_even _ h2⟩

/-- C2 witness: concrete instances of the three parts, at the text of the
documented scenario with one unescaped dollar, a clean text, and a clean
one-question batch. -/
theorem format_check_unbalanced_iff_odd_witness :
    validate_latex_format "Solve $x+1=2" = some .unbalancedDollars ∧
    countUnescapedDollars "hello" % 2 = 0 ∧
    countUnescapedDollars sampleDoc.question_text % 2 = 0 ∧
      countUnescapedDollars sampleDoc.explanation % 2 = 0 :=
  ⟨(format_check_unbalanced_iff_odd "Solve $x+1=2" []).1.mpr (by decide),
   (format_check_unbalanced_iff_odd "hello" []).2.1 (by decide),
   (format_check_unbalanced_iff_odd "" [sampleDoc]).2.2 (by decide)
     sampleDoc (by decide)⟩

/-- C3 counterexample: a batch whose correct-option label Z references no
option label is accepted by master_validation_loop when its texts pass the
format check and the reviewer response lacks the sentinel, so accepted
batches need not satisfy the label invariant. -/
theorem validator_accepts_dangling_label :
    master_validation_loop ⟨[danglingDoc]⟩ "Looks correct." =
      .ok ⟨[danglingDoc]⟩ ∧
    ¬ labelInvariant ⟨[danglingDoc]⟩ :=
  ⟨rfl, by unfold labelInvariant; decide⟩

/-- C3 amended: master_validation_loop never inspects option labels or
correct-option labels; it accepts any batch whose question and explanation
texts pass the format check when the reviewer response lacks the sentinel,
so acceptance does not enforce the subset or uniqueness invariant. -/
theorem validator_acceptance_ignores_labels (bank : QuestionBank)
    (critique : String) (hfmt : formatCheckBank bank.questions = none)
    (hc : containsFix critique = false) :
    master_validation_loop bank critique = .ok bank :=
  master_validation_loop_accepts bank critique hfmt hc

/-- C3 amended witness: the dangling-label batch is accepted under a
sentinel-free reviewer response. -/
theorem validator_acceptance_ignores_labels_witness :
    master_validation_loop ⟨[danglingDoc]⟩ "No issues found." =
      .ok ⟨[danglingDoc]⟩ :=
  validator_acceptance_ignores_labels ⟨[danglingDoc]⟩ "No issues found."
    (by decide) (by decide)

/-- C4 counterexample: the output validator of the tutor agent accepts an
empty batch for requirements demanding two questions, so the generator is
not bound to return exactly number_of_questions questions. -/
theorem generator_batch_size_not_enforced :
    validate_question_rigor algebraDeps ⟨[]⟩ ⟨true, none⟩ = .ok ⟨[]⟩ ∧
    algebraDeps.number_of_questions = 2 ∧
    (⟨[]⟩ : QuestionBank).questions.length ≠ 2 :=
  ⟨rfl, rfl, by decide⟩

/-- C4 amended: nothing in the generation pipeline constrains the batch
size; the output validator accepts any schema-conformant batch the model
returns whenever the reviewing validator marks it valid, regardless of the
requested number_of_questions. -/
theorem generator_accepts_any_size (deps : UserRequirements)
    (bank : QuestionBank) (v : ValidationResult) (hv : v.is_valid = true) :
    validate_question_rigor deps bank v = .ok bank := by
  unfold validate_question_rigor
  rw [hv]
  rfl

/-- C4 amended witness: a five-question request accepting an empty batch. -/
theorem generator_accepts_any_size_witness :
    validate_question_rigor { number_of_questions := 5 } ⟨[]⟩ ⟨true, none⟩ =
      .ok ⟨[]⟩ :=
  generator_accepts_any_size { number_of_questions := 5 } ⟨[]⟩ ⟨true, none⟩
    rfl

/-- C5: once the format check has passed, master_validation_loop rejects
exactly when the uppercased reviewer response contains the sentinel FIX:,
raising the failure that carries the reviewer text, and accepts otherwise. -/
theorem logical_check_fix_sentinel (bank : QuestionBank) (critique : String)
    (hfmt : formatCheckBank bank.questions = none) :
    ((∃ msg, master_validation_loop bank critique = .error msg) ↔
      containsFix critique = true) ∧
    (containsFix critique = true →
      master_validation_loop bank critique =
        .error ("Logic Error: " ++ critique)) ∧
    (containsFix critique = false →
      master_validation_loop bank critique = .ok bank) := by
  unfold master_validation_loop
  rw [hfmt]
  cases hc : containsFix critique <;> simp [hc]

/-- C5 witness: the documented scenario response is rejected with the
reviewer text carried in the reason; a sentinel-free response is accepted. -/
theorem logical_check_fix_sentinel_witness :
    master_validation_loop ⟨[]⟩
        "FIX: the distractor options are not mutually exclusive" =
      .error ("Logic Error: " ++
        "FIX: the distractor options are not mutually exclusive") ∧
    master_validation_loop ⟨[]⟩ "The math is sound." = .ok ⟨[]⟩ :=
  ⟨(logical_check_fix_sentinel ⟨[]⟩
      "FIX: the distractor options are not mutually exclusive" rfl).2.1
      (by decide),
   (logical_check_fix_sentinel ⟨[]⟩ "The math is sound." rfl).2.2
      (by decide)⟩

/-- C6 counterexample: the text consisting of a dollar sign and a less-than
sign contains both a disallowed character and a dollar sign, yet the format
check raises the unbalanced-delimiters rejection, not the
disallowed-character one, because the odd dollar count is checked first. -/
theorem angle_rejection_shadowed :
    ('<' ∈ "$<".data ∧ '$' ∈ "$<".data) ∧
    validate_latex_format "$<" = some .unbalancedDollars ∧
    validate_latex_format "$<" ≠ some .disallowedAngle := by
  refine ⟨by decide, by decide, by decide⟩

/-- C6 amended: the disallowed-character rejection is raised exactly when
the unescaped dollar count is even and the text contains a less-than or
greater-than character and contains a dollar sign; with an odd count the
unbalanced rejection is raised instead, and a text with angle brackets but
no dollar sign is not rejected on this ground. -/
theorem angle_rejection_iff (text : String) :
    validate_latex_format text = some .disallowedAngle ↔
      countUnescapedDollars text % 2 = 0 ∧
        (('<' ∈ text.data ∨ '>' ∈ text.data) ∧ '$' ∈ text.data) := by
  unfold validate_latex_format
  by_cases h1 : countUnescapedDollars text % 2 ≠ 0
  · rw [if_pos h1]
    constructor
    · intro hc; simp at hc
    · intro hc; exact absurd hc.1 h1
  · rw [if_neg h1]
    by_cases h2 : ('<' ∈ text.data ∨ '>' ∈ text.data) ∧ '$' ∈ text.data
    · rw [if_pos h2]
      exact ⟨fun _ => ⟨by omega, h2⟩, fun _ => rfl⟩
    · rw [if_neg h2]
      constructor
      · intro hc; simp at hc
      · intro hc; exact absurd hc.2 h2

/-- C7: update_requirements stores every extracted field, and after its one
curriculum read keyed by the grade and subject it just stored, the
reference field holds the stored reference when the record exists and
carries one, and otherwise keeps the model-extracted value. -/
theorem update_requirements_reference_resolution (deps : UserRequirements)
    (lookup : Grade → String → Option CurriculumDoc) (grade : Grade)
    (subject reference topic : String) (subtopic : Option String)
    (difficulty : QuestionDifficulty) (n : Nat) :
    (update_requirements deps lookup grade subject reference topic subtopic
        difficulty n).grade = grade ∧
    (update_requirements deps lookup grade subject reference topic subtopic
        difficulty n).subject = subject ∧
    (update_requirements deps lookup grade subject reference topic subtopic
        difficulty n).reference =
      (match lookup grade subject with
       | some doc =>
           match doc.reference with
           | some r => r
           | none => reference
       | none => reference) := by
  unfold update_requirements
  cases h : lookup grade subject with
  | none => exact ⟨rfl, rfl, rfl⟩
  | some doc =>
      obtain ⟨ref⟩ := doc
      cases ref with
      | none => exact ⟨rfl, rfl, rfl⟩
      | some r => exact ⟨rfl, rfl, rfl⟩

/-- Failure case of the insert loop: with the first failing insert call at
offset j, the loop stops there, keeping exactly the records inserted before
it. -/
theorem insertLoop_fail (ok : Nat → Bool) :
    ∀ (records store : List Question) (k j : Nat),
      j < records.length → (∀ i, i < j → ok (k + i) = true) →
      ok (k + j) = false →
      insertLoop ok store records k = (store ++ records.take j, false) := by
  intro records
  induction records with
  | nil =>
      intro store k j hj _ _
      exact absurd hj (Nat.not_lt_zero j)
  | cons r rest ih =>
      intro store k j hj hpre hfail
      cases j with
      | zero =>
          have h0 : ok k = false := by simpa using hfail
          simp [insertLoop, h0]
      | succ j' =>
          have h0 : ok k = true := by simpa using hpre 0 (Nat.succ_pos j')
          have hpre' : ∀ i, i < j' → ok (k + 1 + i) = true := by
            intro i hi
            have e : k + 1 + i = k + (i + 1) := by omega
            rw [e]
            exact hpre (i + 1) (by omega)
          have hfail' : ok (k + 1 + j') = false := by
            have e : k + 1 + j' = k + (j' + 1) := by omega
            rw [e]
            exact hfail
          have hj' : j' < rest.length := by simpa using hj
          simp [insertLoop, h0,
            ih (store ++ [r]) (k + 1) j' hj' hpre' hfail']

/-- Success case of the insert loop: when every insert call succeeds, all
records end up appended in order. -/
theorem insertLoop_success (ok : Nat → Bool) (hok : ∀ i, ok i = true) :
    ∀ (records store : List Question) (k : Nat),
      insertLoop ok store records k = (store ++ records, true) := by
  intro records
  induction records with
  | nil => intro store k; simp [insertLoop]
  | cons r rest ih =>
      intro store k
      simp [insertLoop, hok k, ih (store ++ [r]) (k + 1)]

/-- C8: the persistence stage inserts the built records one call at a time
in batch order; if the first failing insert call is the one at offset j,
exactly the prefix of the batch before it remains persisted, with no
rollback of earlier insertions, and if every call succeeds the whole batch
is appended in order. -/
theorem insert_loop_prefix_persistence (deps : UserRequirements)
    (bucket : List String) (now : Nat) (qs : List QuestionDocument)
    (ok : Nat → Bool) (store : List Question) (j : Nat) :
    (j < (persistRecords deps bucket now qs).length →
      (∀ i, i < j → ok i = true) → ok j = false →
      insertLoop ok store (persistRecords deps bucket now qs) 0 =
        (store ++ (persistRecords deps bucket now qs).take j, false)) ∧
    ((∀ i, ok i = true) →
      insertLoop ok store (persistRecords deps bucket now qs) 0 =
        (store ++ persistRecords deps bucket now qs, true)) := by
  constructor
  · intro hj hpre hfail
    have hpre0 : ∀ i, i < j → ok (0 + i) = true := by
      intro i hi
      simpa using hpre i hi
    have hfail0 : ok (0 + j) = false := by simpa using hfail
    exact insertLoop_fail ok (persistRecords deps bucket now qs) store 0 j
      hj hpre0 hfail0
  · intro hok
    exact insertLoop_success ok hok (persistRecords deps bucket now qs)
      store 0

/-- C8 witness: a two-question batch whose second insert call fails leaves
exactly the first record persisted. -/
theorem insert_loop_prefix_persistence_witness :
    insertLoop (fun i => i == 0) []
        (persistRecords algebraDeps [] 0 [sampleDoc, sampleDoc]) 0 =
      ([] ++ (persistRecords algebraDeps [] 0 [sampleDoc, sampleDoc]).take 1,
        false) :=
  (insert_loop_prefix_persistence algebraDeps [] 0 [sampleDoc, sampleDoc]
      (fun i => i == 0) [] 1).1 (by decide)
    (fun i hi => by
      have h : i = 0 := by omega
      subst h
      rfl)
    rfl

/-- C9: master_validation_loop acts as the identity on accepted batches:
whatever bank an accepting run returns equals the input bank in every
question and field, and a batch passing both checks is returned as is. -/
theorem validator_identity_on_accept (bank : QuestionBank)
    (critique : String) :
    (∀ b, master_validation_loop bank critique = .ok b → b = bank) ∧
    (formatCheckBank bank.questions = none → containsFix critique = false →
      master_validation_loop bank critique = .ok bank) := by
  constructor
  · intro b hb
    unfold master_validation_loop at hb
    split at hb
    · cases hb
    · split at hb
      · cases hb
      · exact (Except.ok.inj hb).symm
  · exact master_validation_loop_accepts bank critique

/-- C9 witness: an accepting run on a clean one-question batch returns
exactly that batch. -/
theorem validator_identity_on_accept_witness :
    ((⟨[sampleDoc]⟩ : QuestionBank) = ⟨[sampleDoc]⟩) ∧
    master_validation_loop ⟨[sampleDoc]⟩ "The math is correct." =
      .ok ⟨[sampleDoc]⟩ :=
  ⟨(validator_identity_on_accept ⟨[sampleDoc]⟩ "The math is correct.").1
      ⟨[sampleDoc]⟩ rfl,
   (validator_identity_on_accept ⟨[sampleDoc]⟩ "The math is correct.").2
      rfl (by decide)⟩

/-- C10: while the shared handle is unset, get_db and both collection
accessors raise the not-connected RuntimeError; after a connect_db call
whose ping succeeded, get_db returns the connected database and the
accessors return its collections. -/
theorem get_db_requires_connection (st : MongoDBState) (pingOk : Bool) :
    (st.db = none →
      get_db st = .error notConnectedMsg ∧
      get_questions_collection st = .error notConnectedMsg ∧
      get_curriculum_collection st = .error notConnectedMsg) ∧
    ((connect_db st pingOk).2 = none →
      get_db (connect_db st pingOk).1 = .ok "lumi_db" ∧
      get_questions_collection (connect_db st pingOk).1 =
        .ok ("lumi_db", "questions") ∧
      get_curriculum_collection (connect_db st pingOk).1 =
        .ok ("lumi_db", "curriculum")) := by
  constructor
  · intro h
    have hg : get_db st = .error notConnectedMsg := by
      unfold get_db
      rw [h]
    refine ⟨hg, ?_, ?_⟩
    · unfold get_questions_collection
      rw [hg]
      rfl
    · unfold get_curriculum_collection
      rw [hg]
      rfl
  · intro _
    exact ⟨rfl, rfl, rfl⟩

/-- C10 witness: the fresh unconnected state errors everywhere, and the
state after a successful connect_db serves the database and collections. -/
theorem get_db_requires_connection_witness :
    (get_db ⟨none, none⟩ = .error notConnectedMsg ∧
      get_questions_collection ⟨none, none⟩ = .error notConnectedMsg ∧
      get_curriculum_collection ⟨none, none⟩ = .error notConnectedMsg) ∧
    (get_db (connect_db ⟨none, none⟩ true).1 = .ok "lumi_db" ∧
      get_questions_collection (connect_db ⟨none, none⟩ true).1 =
        .ok ("lumi_db", "questions") ∧
      get_curriculum_collection (connect_db ⟨none, none⟩ true).1 =
        .ok ("lumi_db", "curriculum")) :=
  ⟨(get_db_requires_connection ⟨none, none⟩ true).1 rfl,
   (get_db_requires_connection ⟨none, none⟩ true).2 rfl⟩
